import Mathlib

/-!
Verification development for the MS8607 pressure/temperature driver
(src/Adafruit_MS8607.cpp).

Shallow embedding conventions:
* C unsigned/signed machine words are modelled as `Nat`/`Int`.  A value of C
  type `intN_t` produced by an operation whose mathematical result may leave
  the `intN_t` range is wrapped with `i32`/`i64` (two's-complement reduction);
  operations whose result provably fits for every value of the operand C
  types (e.g. `(int64_t)TEMP - 2000`) are left unwrapped.
* C `>>` on a signed 64-bit value is an arithmetic shift, i.e. flooring
  division by a power of two (`asr` below; Lean `Int./` is flooring for a
  positive divisor).  C `/` on `int64_t` truncates towards zero (`Int.tdiv`).
* The `float` results `_temperature` and `_pressure` are modelled as exact
  rationals: for in-range inputs `(float)TEMP - T2` is an integer of
  magnitude below 2^24 and hence exact in IEEE single precision; the final
  division by 100 is modelled exactly in `ℚ`.
* The I2C bus is modelled by records of outcomes (a success flag plus the
  bytes found in the buffer after each transaction; the C code reads the
  buffer whether or not the transaction succeeded).  `delay` has no
  observable effect in the embedding.
-/

/-- Two's-complement reduction of an integer into the `int32_t` range
(the value appearing in an `int32_t` after a narrowing conversion). -/
def i32 (x : Int) : Int := (x + 2 ^ 31) % 2 ^ 32 - 2 ^ 31

/-- Two's-complement reduction of an integer into the `int64_t` range
(the value appearing in an `int64_t` after an overflowing operation). -/
def i64 (x : Int) : Int := (x + 2 ^ 63) % 2 ^ 64 - 2 ^ 63

/-- Arithmetic shift right on a signed value: C's `x >> n` on `int64_t`
(flooring division by `2 ^ n`). -/
def asr (x : Int) (n : Nat) : Int := x / 2 ^ n

/-- All intermediate values of the compensation step of
`Adafruit_MS8607::_read` (src/Adafruit_MS8607.cpp lines 238-273), together
with the two stored results. -/
structure CompOut where
  dT : Int
  TEMP : Int
  T2 : Int
  OFF2 : Int
  SENS2 : Int
  OFF : Int
  SENS : Int
  P : Int
  temperature : ℚ
  pressure : ℚ
deriving DecidableEq, Repr

/-- Line 238: `dT = (int32_t)raw_temp - ((int32_t)ref_temp << 8);`
(`dT` is an `int32_t`; `raw_temp` is a `uint32_t`, so its conversion to
`int32_t` is a two's-complement reduction). -/
def dT_val (ref_temp raw_temp : Int) : Int :=
  i32 (i32 raw_temp - i32 (ref_temp * 2 ^ 8))

/-- Line 241: `TEMP = 2000 + ((int64_t)dT * (int64_t)temp_temp_coeff >> 23);`
(`TEMP` is an `int32_t`, assigned from an `int64_t` expression). -/
def TEMP_val (temp_temp_coeff dT : Int) : Int :=
  i32 (i64 (2000 + asr (i64 (dT * temp_temp_coeff)) 23))

/-- Lines 244-257: the second order compensation branch computing
`(T2, OFF2, SENS2)`.  C `/` on `int64_t` truncates towards zero
(`Int.tdiv`); the products are wrapped at `int64_t` width. -/
def second_val (dT TEMP : Int) : Int × Int × Int :=
  if TEMP < 2000 then
    let T2 := asr (i64 (3 * i64 (dT * dT))) 33
    let OFF2 := (i64 (i64 (61 * (TEMP - 2000)) * (TEMP - 2000))).tdiv 16
    let SENS2 := (i64 (i64 (29 * (TEMP - 2000)) * (TEMP - 2000))).tdiv 16
    if TEMP < -1500 then
      (T2, i64 (OFF2 + i64 (i64 (17 * (TEMP + 1500)) * (TEMP + 1500))),
        i64 (SENS2 + i64 (i64 (9 * (TEMP + 1500)) * (TEMP + 1500))))
    else
      (T2, OFF2, SENS2)
  else
    (asr (i64 (5 * i64 (dT * dT))) 38, 0, 0)

/-- Lines 260-262: `OFF = ((int64_t)(press_offset) << 17) +
(((int64_t)press_offset_temp_coeff * dT) >> 6); OFF -= OFF2;`. -/
def OFF_val (press_offset press_offset_temp_coeff dT OFF2 : Int) : Int :=
  i64 (i64 (i64 (press_offset * 2 ^ 17) + asr (i64 (press_offset_temp_coeff * dT)) 6) - OFF2)

/-- Lines 265-267: `SENS = ((int64_t)press_sens << 16) +
(((int64_t)press_sens_temp_coeff * dT) >> 7); SENS -= SENS2;`. -/
def SENS_val (press_sens press_sens_temp_coeff dT SENS2 : Int) : Int :=
  i64 (i64 (i64 (press_sens * 2 ^ 16) + asr (i64 (press_sens_temp_coeff * dT)) 7) - SENS2)

/-- Line 270: `P = (((raw_pressure * SENS) >> 21) - OFF) >> 15;`
(`raw_pressure` is a `uint32_t`, converted to `int64_t` by the usual
arithmetic conversions before the multiplication). -/
def P_val (raw_pressure SENS OFF : Int) : Int :=
  asr (i64 (asr (i64 (raw_pressure * SENS)) 21 - OFF)) 15

/-- The compensation step of `Adafruit_MS8607::_read`
(src/Adafruit_MS8607.cpp lines 238-273), from the raw 24-bit ADC counts and
the six 16-bit calibration constants to the stored `_temperature` (line 272:
`((float)TEMP - T2) / 100`) and `_pressure` (line 273: `(float)P / 100`). -/
def compRead (press_sens press_offset press_sens_temp_coeff press_offset_temp_coeff
    ref_temp temp_temp_coeff raw_temp raw_pressure : Int) : CompOut :=
  let dT := dT_val ref_temp raw_temp
  let TEMP := TEMP_val temp_temp_coeff dT
  let sec := second_val dT TEMP
  let OFF := OFF_val press_offset press_offset_temp_coeff dT sec.2.1
  let SENS := SENS_val press_sens press_sens_temp_coeff dT sec.2.2
  let P := P_val raw_pressure SENS OFF
  { dT := dT, TEMP := TEMP, T2 := sec.1, OFF2 := sec.2.1, SENS2 := sec.2.2,
    OFF := OFF, SENS := SENS, P := P,
    temperature := ((TEMP : ℚ) - (sec.1 : ℚ)) / 100,
    pressure := (P : ℚ) / 100 }

/-- The compensation algorithm exactly as written in spec.md section 4.3, in
unbounded ("signed 64-bit, overflow-free") integer arithmetic: the reference
definition that claim C1 compares `compRead` against. -/
def specCompensate (press_sens press_offset press_sens_temp_coeff press_offset_temp_coeff
    ref_temp temp_temp_coeff raw_temp raw_pressure : Int) : CompOut :=
  let dT := raw_temp - ref_temp * 2 ^ 8
  let TEMP := 2000 + asr (dT * temp_temp_coeff) 23
  let sec :=
    if TEMP < 2000 then
      let T2 := asr (3 * dT ^ 2) 33
      let OFF2 := 61 * (TEMP - 2000) ^ 2 / 16
      let SENS2 := 29 * (TEMP - 2000) ^ 2 / 16
      if TEMP < -1500 then
        (T2, OFF2 + 17 * (TEMP + 1500) ^ 2, SENS2 + 9 * (TEMP + 1500) ^ 2)
      else
        (T2, OFF2, SENS2)
    else
      (asr (5 * dT ^ 2) 38, 0, 0)
  let OFF := press_offset * 2 ^ 17 + asr (press_offset_temp_coeff * dT) 6 - sec.2.1
  let SENS := press_sens * 2 ^ 16 + asr (press_sens_temp_coeff * dT) 7 - sec.2.2
  let P := asr (asr (raw_pressure * SENS) 21 - OFF) 15
  { dT := dT, TEMP := TEMP, T2 := sec.1, OFF2 := sec.2.1, SENS2 := sec.2.2,
    OFF := OFF, SENS := SENS, P := P,
    temperature := ((TEMP : ℚ) - (sec.1 : ℚ)) / 100,
    pressure := (P : ℚ) / 100 }

/-- The value of a C `uint16_t` (used for the calibration constants). -/
def isU16 (x : Int) : Prop := 0 ≤ x ∧ x < 2 ^ 16

/-- The value of a 24-bit raw ADC count. -/
def isU24 (x : Int) : Prop := 0 ≤ x ∧ x < 2 ^ 24

instance (x : Int) : Decidable (isU16 x) := by unfold isU16; infer_instance

instance (x : Int) : Decidable (isU24 x) := by unfold isU24; infer_instance

/-- One step of the CRC shift loop, lines 297-303 of
src/Adafruit_MS8607.cpp: `if (n_rem & 0x8000) n_rem = (n_rem << 1) ^ 0x3000;
else n_rem <<= 1;` (`n_rem` is a `uint16_t`, so each assignment truncates
modulo 2^16). -/
def crc_step (n_rem : Nat) : Nat :=
  if n_rem &&& 0x8000 ≠ 0 then ((n_rem <<< 1) ^^^ 0x3000) % 2 ^ 16
  else (n_rem <<< 1) % 2 ^ 16

/-- The inner loop of lines 297-303: eight `crc_step`s. -/
def crc_shift8 (n_rem : Nat) : Nat := crc_step^[8] n_rem

/-- The outer loop of lines 289-304 folded over the list of bytes: each byte
is XORed directly into the (low byte of the) 16-bit remainder, then the
eight shift steps run. -/
def crc_bytes : List Nat → Nat → Nat
  | [], n_rem => n_rem
  | b :: bs, n_rem => crc_bytes bs (crc_shift8 (n_rem ^^^ b))

/-- Byte number `cnt` taken by the loop at lines 289-295:
`if (cnt % 2 == 1) n_rem ^= n_prom[cnt >> 1] & 0x00FF; else
n_rem ^= n_prom[cnt >> 1] >> 8;`. -/
def prom_byte (n_prom : List Nat) (cnt : Nat) : Nat :=
  if cnt % 2 == 1 then n_prom.getD (cnt >>> 1) 0 &&& 0x00FF
  else n_prom.getD (cnt >>> 1) 0 >>> 8

/-- The 16 bytes consumed by the loop `for (cnt = 0; cnt < (7 + 1) * 2; cnt++)`. -/
def prom_bytes (n_prom : List Nat) : List Nat :=
  (List.range 16).map (prom_byte n_prom)

/-- Lines 286-287: `n_prom[7] = 0; n_prom[0] = (0x0FFF & (n_prom[0]));`. -/
def prepped (n_prom : List Nat) : List Nat :=
  (n_prom.set 7 0).set 0 (0x0FFF &&& n_prom.getD 0 0)

/-- The computed CRC nibble: the remainder after all 16 bytes, shifted right
by 12 (line 305: `n_rem >>= 12;`). -/
def crc_nibble (n_prom : List Nat) : Nat :=
  crc_bytes (prom_bytes (prepped n_prom)) 0 >>> 12

/-- `Adafruit_MS8607::_psensor_crc_check` (src/Adafruit_MS8607.cpp lines
280-308).  The C function receives a pointer to the caller's 8-entry
`uint16_t` array and mutates it (slot 7 zeroed, slot 0 masked during the
computation and then restored from `crc_read`); the embedding returns the
verdict `n_rem == crc` together with the final contents of the array. -/
def _psensor_crc_check (n_prom : List Nat) (crc : Nat) : Bool × List Nat :=
  let crc_read := n_prom.getD 0 0
  (crc_nibble n_prom == crc, (prepped n_prom).set 0 crc_read)

/-- The stored CRC nibble extracted by the caller at line 92:
`(buffer[0] & 0xF000) >> 12`. -/
def storedCRC (n_prom : List Nat) : Nat :=
  (n_prom.getD 0 0 &&& 0xF000) >>> 12

/-- A single-bit flip of bit `k` of word `j` of a calibration word list. -/
def flipWord (l : List Nat) (j k : Nat) : List Nat :=
  l.set j (l.getD j 0 ^^^ 2 ^ k)

/-- One shift step as worded in spec.md section 4.1 step 4: "if the
remainder's top bit is set, shift left by 1 and XOR with 0x3000, else just
shift left by 1" (16-bit remainder). -/
def spec_crc_step (n_rem : Nat) : Nat :=
  if n_rem.testBit 15 then ((n_rem <<< 1) ^^^ 0x3000) % 2 ^ 16
  else (n_rem <<< 1) % 2 ^ 16

/-- Eight steps of `spec_crc_step` (spec.md section 4.1 step 4). -/
def spec_crc_shift8 (n_rem : Nat) : Nat := spec_crc_step^[8] n_rem

/-- Spec.md section 4.1 steps 1-3: word0 masked with 0x0FFF, a synthetic
eighth word set to 0, and the 8 words serialized as 16 bytes, high byte
then low byte per word, in order. -/
def spec_crc_input (cal : List Nat) : List Nat :=
  ((cal.take 7).set 0 (0x0FFF &&& cal.getD 0 0) ++ [0]).flatMap
    (fun w => [w >>> 8, w &&& 0x00FF])

/-- The CRC nibble per spec.md section 4.1 as amended: each byte is XORed
directly into the (low byte of the) 16-bit remainder, then the 8 shift
steps run; the final remainder is shifted right by 12. -/
def spec_crc_nibble_low (cal : List Nat) : Nat :=
  ((spec_crc_input cal).foldl (fun n_rem b => spec_crc_shift8 (n_rem ^^^ b)) 0) >>> 12

/-- The CRC nibble computed with each byte "XORed into the high byte of the
remainder", the literal wording of spec.md section 4.1 step 4 and of claim
C2. -/
def spec_crc_nibble_high (cal : List Nat) : Nat :=
  ((spec_crc_input cal).foldl (fun n_rem b => spec_crc_shift8 (n_rem ^^^ (b <<< 8))) 0) >>> 12

/-- Validity check using the high-byte wording of claim C2: the computed
nibble must equal the crc argument. -/
def spec_crc_check_high (cal : List Nat) (crc : Nat) : Bool :=
  spec_crc_nibble_high cal == crc

/-- Device state: the fields of the `Adafruit_MS8607` class that the core
logic reads or writes (six `uint16_t` calibration constants, the resolution
setting, and the cached float reading modelled as exact rationals). -/
structure Adafruit_MS8607 where
  press_sens : Nat
  press_offset : Nat
  press_sens_temp_coeff : Nat
  press_offset_temp_coeff : Nat
  ref_temp : Nat
  temp_temp_coeff : Nat
  psensor_resolution_osr : Nat
  _temperature : ℚ
  _pressure : ℚ
deriving DecidableEq, Repr

/-- Modelled from the spec: the protocol constants
(`PSENSOR_START_TEMPERATURE_ADC_CONVERSION`,
`PSENSOR_START_PRESSURE_ADC_CONVERSION`, `PSENSOR_READ_ADC`,
`MS8607_PRESSURE_RESOLUTION_OSR_8192`) are declared in Adafruit_MS8607.h,
which is not among the sources; spec.md section 4.2 fixes only their roles
(channel start-conversion flags, ADC read command, highest resolution code),
not their numeric values, so they are carried as parameters. -/
structure ProtoConsts where
  tempStartFlag : Nat
  pressStartFlag : Nat
  adcReadCmd : Nat
  osr8192 : Nat
deriving DecidableEq, Repr

/-- Outcome of one PROM `write_then_read` during `_init`: the returned
success flag (which the C code ignores) and the two bytes found in
`tmp_buffer` afterwards. -/
structure PromRead where
  ok : Bool
  b0 : Nat
  b1 : Nat
deriving DecidableEq, Repr

/-- Outcomes of the four bus transactions of one `_read` cycle: for each,
the success flag, and for the two ADC reads the three bytes found in
`buffer` afterwards (the C code uses the buffer whether or not the
transaction succeeded). -/
structure ReadBus where
  write_temp_ok : Bool
  temp_b0 : Nat
  temp_b1 : Nat
  temp_b2 : Nat
  read_temp_ok : Bool
  write_press_ok : Bool
  press_b0 : Nat
  press_b1 : Nat
  press_b2 : Nat
  read_press_ok : Bool
deriving DecidableEq, Repr

/-- A bus transaction as observed on the wire. -/
inductive BusOp where
  | write (b : Nat)
  | write_then_read (cmd : Nat) (nbytes : Nat)
deriving DecidableEq, Repr

/-- C conversion of `bool` to an integer (`status |= i2c_dev->write(...)`). -/
def b2n (b : Bool) : Nat := if b then 1 else 0

/-- Lines 223-224 / 235-236: three buffer bytes assembled big-endian,
`((uint32_t)buffer[0] << 16) | ((uint32_t)buffer[1] << 8) | buffer[2]`. -/
def assemble24 (b0 b1 b2 : Nat) : Nat :=
  b0 <<< 16 ||| b1 <<< 8 ||| b2

/-- `Adafruit_MS8607::_read` (src/Adafruit_MS8607.cpp lines 199-278).
Returns the updated device state, the C return value, and the trace of bus
transactions in program order.  `status0` is the indeterminate initial value
of the uninitialized local `uint8_t status`; each transaction's success flag
is OR-ed into it (`status |= ...`), and the function returns `status`
converted to `bool`.  The two `delay(18)` calls have no observable effect.
The state update at lines 272-273 is unconditional. -/
def _read (c : ProtoConsts) (s : Adafruit_MS8607) (bus : ReadBus) (status0 : Nat) :
    Adafruit_MS8607 × Bool × List BusOp :=
  let cmdT := (s.psensor_resolution_osr * 2 ||| c.tempStartFlag) % 2 ^ 8
  let status1 := status0 ||| b2n bus.write_temp_ok
  let status2 := status1 ||| b2n bus.read_temp_ok
  let raw_temp := assemble24 bus.temp_b0 bus.temp_b1 bus.temp_b2
  let cmdP := (s.psensor_resolution_osr * 2 ||| c.pressStartFlag) % 2 ^ 8
  let status3 := status2 ||| b2n bus.write_press_ok
  let status4 := status3 ||| b2n bus.read_press_ok
  let raw_pressure := assemble24 bus.press_b0 bus.press_b1 bus.press_b2
  let out := compRead s.press_sens s.press_offset s.press_sens_temp_coeff
    s.press_offset_temp_coeff s.ref_temp s.temp_temp_coeff raw_temp raw_pressure
  ({ s with _temperature := out.temperature, _pressure := out.pressure },
    status4 != 0,
    [BusOp.write cmdT, BusOp.write_then_read c.adcReadCmd 3,
      BusOp.write cmdP, BusOp.write_then_read c.adcReadCmd 3])

/-- `Adafruit_MS8607::getEvent` (lines 117-130): calls `_read()` discarding
its return value, fills the requested event objects from the cached state,
and returns `true` unconditionally (line 129). -/
def getEvent (c : ProtoConsts) (s : Adafruit_MS8607) (bus : ReadBus) (status0 : Nat) :
    Adafruit_MS8607 × Bool :=
  ((_read c s bus status0).1, true)

/-- The 8-entry `uint16_t buffer` as assembled by the loop at lines 84-90:
`buffer[i] = tmp_buffer[0] << 8; buffer[i] |= tmp_buffer[1];` for i < 7;
slot 7 is never written by the loop and holds an indeterminate value
`garbage7`. -/
def init_buffer (prom : List PromRead) (garbage7 : Nat) : List Nat :=
  (List.range 7).map (fun i => (prom.getD i ⟨true, 0, 0⟩).b0 <<< 8 |||
    (prom.getD i ⟨true, 0, 0⟩).b1) ++ [garbage7]

/-- `Adafruit_MS8607::_init` (src/Adafruit_MS8607.cpp lines 79-104): reads
the 7 PROM words (the `write_then_read` success flags are ignored, line 87),
runs the CRC check with the stored top nibble of word 0 (line 92), and on
success stores the six calibration constants and the resolution setting. -/
def _init (c : ProtoConsts) (s : Adafruit_MS8607) (prom : List PromRead) (garbage7 : Nat) :
    Adafruit_MS8607 × Bool :=
  let buffer := init_buffer prom garbage7
  if !(_psensor_crc_check buffer (storedCRC buffer)).1 then (s, false)
  else
    ({ s with
        press_sens := buffer.getD 1 0,
        press_offset := buffer.getD 2 0,
        press_sens_temp_coeff := buffer.getD 3 0,
        press_offset_temp_coeff := buffer.getD 4 0,
        ref_temp := buffer.getD 5 0,
        temp_temp_coeff := buffer.getD 6 0,
        psensor_resolution_osr := c.osr8192 }, true)

/-! ## General helper lemmas -/

/-- A value already in the `int32_t` range is unchanged by the wrap. -/
theorem i32_id {x : Int} (h1 : -(2 ^ 31) ≤ x) (h2 : x < 2 ^ 31) : i32 x = x := by
  unfold i32; omega

/-- A value already in the `int64_t` range is unchanged by the wrap. -/
theorem i64_id {x : Int} (h1 : -(2 ^ 63) ≤ x) (h2 : x < 2 ^ 63) : i64 x = x := by
  unfold i64; omega

/-- Arithmetic shift right is monotone. -/
theorem asr_le_asr {a b : Int} (n : Nat) (h : a ≤ b) : asr a n ≤ asr b n :=
  Int.ediv_le_ediv (by positivity) h

/-- The bit-15 test `n_rem & 0x8000` of the C code, as a `testBit`. -/
theorem land_8000_ne (s : Nat) : s &&& 0x8000 ≠ 0 ↔ s.testBit 15 = true := by
  have h2 : (0x8000 : Nat) = 2 ^ 15 := by norm_num
  constructor
  · intro h
    by_contra hb
    apply h
    apply Nat.eq_of_testBit_eq
    intro i
    simp only [Nat.testBit_and, Nat.zero_testBit]
    rcases eq_or_ne i 15 with rfl | hi
    · simp [Bool.eq_false_iff.mpr hb]
    · have : (0x8000 : Nat).testBit i = false := by
        rw [h2]; exact Nat.testBit_two_pow_of_ne (Ne.symm hi)
      simp [this]
  · intro h h0
    have h15 := congrArg (fun n => n.testBit 15) h0
    simp only [Nat.testBit_and, Nat.zero_testBit] at h15
    rw [h, h2, Nat.testBit_two_pow_self] at h15
    simp at h15

/-- The spec wording of one shift step agrees with the code's step. -/
theorem spec_crc_step_eq : spec_crc_step = crc_step := by
  funext s
  unfold spec_crc_step crc_step
  by_cases h : s &&& 0x8000 ≠ 0
  · rw [if_pos ((land_8000_ne s).mp h), if_pos h]
  · rw [if_neg (fun hb => h ((land_8000_ne s).mpr hb)), if_neg h]

/-- The spec wording of the eight shift steps agrees with the code. -/
theorem spec_crc_shift8_eq (s : Nat) : spec_crc_shift8 s = crc_shift8 s := by
  unfold spec_crc_shift8 crc_shift8
  rw [spec_crc_step_eq]

/-- The code's byte loop is a left fold. -/
theorem crc_bytes_eq_foldl (bs : List Nat) (s : Nat) :
    crc_bytes bs s = bs.foldl (fun n_rem b => crc_shift8 (n_rem ^^^ b)) s := by
  induction bs generalizing s with
  | nil => rfl
  | cons b bs ih => simp [crc_bytes, List.foldl, ih]

/-! ## Claims about the CRC routine: C10, C2 -/

/-- Claim C10: after `_psensor_crc_check` returns, the caller's array holds
its original element 0 (restored from `crc_read`), unchanged elements 1-6,
and element 7 overwritten with 0 — so the caller must supply at least 8
elements although only 7 calibration words are meaningful. -/
theorem c10_crc_check_frame (a0 a1 a2 a3 a4 a5 a6 a7 : Nat) (t : List Nat) (crc : Nat) :
    (_psensor_crc_check (a0 :: a1 :: a2 :: a3 :: a4 :: a5 :: a6 :: a7 :: t) crc).2 =
      a0 :: a1 :: a2 :: a3 :: a4 :: a5 :: a6 :: 0 :: t := rfl

set_option maxRecDepth 4000 in
/-- Claim C2, counterexample: on the valid calibration vector
`[0x8000, 46372, 43981, 29059, 27842, 31553, 28165]` with crc argument 8
(word0's top nibble), `_psensor_crc_check` returns `true`, while the check
described by the claim — each byte XORed into the HIGH byte of the
remainder — computes nibble 14 and would return `false`. -/
theorem c2_counterexample :
    (_psensor_crc_check [32768, 46372, 43981, 29059, 27842, 31553, 28165, 0] 8).1 = true ∧
      spec_crc_check_high [32768, 46372, 43981, 29059, 27842, 31553, 28165] 8 = false := by
  exact ⟨by decide, by decide⟩

/-- Claim C2 as amended: `_psensor_crc_check` computes the CRC with each
byte XORed directly into the LOW byte of the 16-bit remainder (everything
else as described: word0 masked with 0x0FFF, synthetic 8th word 0, 16 bytes
high-then-low per word, 8 shift steps with polynomial 0x3000, final shift
right by 12), and returns true iff that nibble equals the crc argument. -/
theorem c2_crc_check_amended (w0 w1 w2 w3 w4 w5 w6 w7 : Nat) (crc : Nat) :
    (_psensor_crc_check [w0, w1, w2, w3, w4, w5, w6, w7] crc).1 =
      (spec_crc_nibble_low [w0, w1, w2, w3, w4, w5, w6] == crc) := by
  have hstep : (fun (n_rem b : Nat) => spec_crc_shift8 (n_rem ^^^ b)) =
      (fun n_rem b => crc_shift8 (n_rem ^^^ b)) := by
    funext n b
    rw [spec_crc_shift8_eq]
  have : crc_nibble [w0, w1, w2, w3, w4, w5, w6, w7] =
      spec_crc_nibble_low [w0, w1, w2, w3, w4, w5, w6] := by
    unfold crc_nibble spec_crc_nibble_low
    rw [crc_bytes_eq_foldl, hstep]
    rfl
  unfold _psensor_crc_check
  rw [this]

/-! ## Claims about initialization: C3, C7 -/

set_option maxRecDepth 4000 in
/-- Claim C3, counterexample: with the first PROM read reporting failure
(`ok = false`) but all bytes forming the valid vector
`[0x8000, 46372, 43981, 29059, 27842, 31553, 28165]`, `_init` does not fail
with a bus error: it proceeds to the CRC check and returns `true` — so a
failed PROM read neither surfaces before the CRC check nor prevents
initialization from succeeding. -/
theorem c3_counterexample :
    (_init ⟨80, 64, 0, 5⟩ ⟨0, 0, 0, 0, 0, 0, 0, 0, 0⟩
      [⟨false, 128, 0⟩, ⟨true, 181, 36⟩, ⟨true, 171, 205⟩, ⟨true, 113, 131⟩,
        ⟨true, 108, 194⟩, ⟨true, 123, 65⟩, ⟨true, 110, 5⟩] 0).2 = true := by
  decide

/-- Claim C3 as amended: `_init` ignores the success flags of the 7 PROM bus
reads entirely; its behaviour (including whether the CRC check is attempted
and its final result) is the same as if every read had succeeded, depending
only on the bytes found in the buffer. -/
theorem c3_init_ignores_bus_failures (c : ProtoConsts) (s : Adafruit_MS8607)
    (r0 r1 r2 r3 r4 r5 r6 : PromRead) (g : Nat) :
    _init c s [r0, r1, r2, r3, r4, r5, r6] g =
      _init c s [⟨true, r0.b0, r0.b1⟩, ⟨true, r1.b0, r1.b1⟩, ⟨true, r2.b0, r2.b1⟩,
        ⟨true, r3.b0, r3.b1⟩, ⟨true, r4.b0, r4.b1⟩, ⟨true, r5.b0, r5.b1⟩,
        ⟨true, r6.b0, r6.b1⟩] g := rfl

/-- Claim C7: if the CRC check fails during initialization, `_init` returns
failure and the device state is completely unchanged — none of the six
calibration constant fields nor the resolution setting is written. -/
theorem c7_init_crc_fail_writes_nothing (c : ProtoConsts) (s : Adafruit_MS8607)
    (prom : List PromRead) (g : Nat)
    (h : (_psensor_crc_check (init_buffer prom g) (storedCRC (init_buffer prom g))).1 = false) :
    _init c s prom g = (s, false) := by
  simp only [_init]
  rw [h]
  rfl

set_option maxRecDepth 4000 in
/-- Witness for C7 at a concrete input: the all-zero words with bit 0 of
word 0 flipped fail the CRC check, and `_init` leaves the state unchanged
and returns false. -/
theorem c7_witness :
    (_psensor_crc_check
        (init_buffer [⟨true, 0, 1⟩, ⟨true, 0, 0⟩, ⟨true, 0, 0⟩, ⟨true, 0, 0⟩,
          ⟨true, 0, 0⟩, ⟨true, 0, 0⟩, ⟨true, 0, 0⟩] 0)
        (storedCRC (init_buffer [⟨true, 0, 1⟩, ⟨true, 0, 0⟩, ⟨true, 0, 0⟩, ⟨true, 0, 0⟩,
          ⟨true, 0, 0⟩, ⟨true, 0, 0⟩, ⟨true, 0, 0⟩] 0))).1 = false ∧
      _init ⟨80, 64, 0, 5⟩ ⟨1, 2, 3, 4, 5, 6, 7, 8, 9⟩
        [⟨true, 0, 1⟩, ⟨true, 0, 0⟩, ⟨true, 0, 0⟩, ⟨true, 0, 0⟩,
          ⟨true, 0, 0⟩, ⟨true, 0, 0⟩, ⟨true, 0, 0⟩] 0 = (⟨1, 2, 3, 4, 5, 6, 7, 8, 9⟩, false) :=
  ⟨by decide, c7_init_crc_fail_writes_nothing ⟨80, 64, 0, 5⟩ ⟨1, 2, 3, 4, 5, 6, 7, 8, 9⟩
    [⟨true, 0, 1⟩, ⟨true, 0, 0⟩, ⟨true, 0, 0⟩, ⟨true, 0, 0⟩,
      ⟨true, 0, 0⟩, ⟨true, 0, 0⟩, ⟨true, 0, 0⟩] 0 (by decide)⟩

/-! ## Claims about the read cycle: C4, C5, C6 -/

set_option maxRecDepth 4000 in
/-- Claim C4, counterexample: a device state with cached reading
`_temperature = 99` undergoes a read cycle in which every bus transaction
fails; afterwards the cached temperature is no longer 99 (it has been
overwritten with the value computed from the buffer contents), so the
previous Reading is not preserved. -/
theorem c4_counterexample :
    ((_read ⟨80, 64, 0, 5⟩ ⟨0, 0, 0, 0, 0, 0, 5, 99, 99⟩
        ⟨false, 0, 0, 0, false, false, 0, 0, 0, false⟩ 0).1)._temperature ≠ (99 : ℚ) := by
  have hA : assemble24 0 0 0 = 0 := by decide
  norm_num [_read, compRead, dT_val, TEMP_val, second_val, i32, i64, asr, hA]

/-- Claim C4 as amended: `_read` unconditionally overwrites the cached
`_temperature` and `_pressure` with the values compensated from this
cycle's buffer contents, whether or not any bus transaction failed —
the previous Reading is never preserved across a read cycle. -/
theorem c4_read_always_overwrites (c : ProtoConsts) (s : Adafruit_MS8607)
    (bus : ReadBus) (status0 : Nat) :
    (_read c s bus status0).1 =
      { s with
          _temperature := (compRead s.press_sens s.press_offset s.press_sens_temp_coeff
            s.press_offset_temp_coeff s.ref_temp s.temp_temp_coeff
            (assemble24 bus.temp_b0 bus.temp_b1 bus.temp_b2)
            (assemble24 bus.press_b0 bus.press_b1 bus.press_b2)).temperature,
          _pressure := (compRead s.press_sens s.press_offset s.press_sens_temp_coeff
            s.press_offset_temp_coeff s.ref_temp s.temp_temp_coeff
            (assemble24 bus.temp_b0 bus.temp_b1 bus.temp_b2)
            (assemble24 bus.press_b0 bus.press_b1 bus.press_b2)).pressure } := rfl

set_option maxRecDepth 4000 in
/-- Claim C5: the code does not report bus failures from a read cycle.
With the first bus write failing and the remaining three transactions
succeeding, `_read` still returns `true` (the uninitialized `status` is
OR-ed with each transaction's success flag, so one success suffices),
contradicting its own documentation "true: success false: failure"; and
`getEvent` returns `true` even when every bus transaction of the cycle
failed (it discards `_read`'s result entirely). -/
theorem c5_bus_failure_not_reported :
    (_read ⟨80, 64, 0, 5⟩ ⟨0, 0, 0, 0, 0, 0, 5, 0, 0⟩
        ⟨false, 0, 0, 0, true, true, 0, 0, 0, true⟩ 0).2.1 = true ∧
      (getEvent ⟨80, 64, 0, 5⟩ ⟨0, 0, 0, 0, 0, 0, 5, 0, 0⟩
        ⟨false, 0, 0, 0, false, false, 0, 0, 0, false⟩ 0).2 = true := by
  exact ⟨by decide, rfl⟩

/-- Claim C6: every read cycle issues exactly the four bus transactions
temperature-start, ADC read, pressure-start, ADC read in this order (the
temperature start-conversion command and its 3-byte raw read strictly
before the pressure start-conversion command); each start command byte is
the resolution code times 2 OR-ed with the channel's flag; and each raw
value consumed by the compensation is the 3 buffer bytes assembled
big-endian, a 24-bit unsigned integer. -/
theorem c6_read_sequencing (c : ProtoConsts) (s : Adafruit_MS8607) (bus : ReadBus)
    (status0 : Nat)
    (hT : s.psensor_resolution_osr * 2 ||| c.tempStartFlag < 2 ^ 8)
    (hP : s.psensor_resolution_osr * 2 ||| c.pressStartFlag < 2 ^ 8)
    (hb0 : bus.temp_b0 < 2 ^ 8) (hb1 : bus.temp_b1 < 2 ^ 8) (hb2 : bus.temp_b2 < 2 ^ 8)
    (hc0 : bus.press_b0 < 2 ^ 8) (hc1 : bus.press_b1 < 2 ^ 8) (hc2 : bus.press_b2 < 2 ^ 8) :
    (_read c s bus status0).2.2 =
      [BusOp.write (s.psensor_resolution_osr * 2 ||| c.tempStartFlag),
        BusOp.write_then_read c.adcReadCmd 3,
        BusOp.write (s.psensor_resolution_osr * 2 ||| c.pressStartFlag),
        BusOp.write_then_read c.adcReadCmd 3] ∧
      assemble24 bus.temp_b0 bus.temp_b1 bus.temp_b2 < 2 ^ 24 ∧
      assemble24 bus.press_b0 bus.press_b1 bus.press_b2 < 2 ^ 24 ∧
      (_read c s bus status0).1._temperature =
        (compRead s.press_sens s.press_offset s.press_sens_temp_coeff
          s.press_offset_temp_coeff s.ref_temp s.temp_temp_coeff
          (assemble24 bus.temp_b0 bus.temp_b1 bus.temp_b2)
          (assemble24 bus.press_b0 bus.press_b1 bus.press_b2)).temperature ∧
      (_read c s bus status0).1._pressure =
        (compRead s.press_sens s.press_offset s.press_sens_temp_coeff
          s.press_offset_temp_coeff s.ref_temp s.temp_temp_coeff
          (assemble24 bus.temp_b0 bus.temp_b1 bus.temp_b2)
          (assemble24 bus.press_b0 bus.press_b1 bus.press_b2)).pressure := by
  refine ⟨?_, ?_, ?_, rfl, rfl⟩
  · show [BusOp.write ((s.psensor_resolution_osr * 2 ||| c.tempStartFlag) % 2 ^ 8),
      BusOp.write_then_read c.adcReadCmd 3,
      BusOp.write ((s.psensor_resolution_osr * 2 ||| c.pressStartFlag) % 2 ^ 8),
      BusOp.write_then_read c.adcReadCmd 3] = _
    rw [Nat.mod_eq_of_lt hT, Nat.mod_eq_of_lt hP]
  · unfold assemble24
    have h0 : bus.temp_b0 <<< 16 < 2 ^ 24 := by
      rw [Nat.shiftLeft_eq]
      omega
    have h1 : bus.temp_b1 <<< 8 < 2 ^ 24 := by
      rw [Nat.shiftLeft_eq]
      omega
    exact Nat.or_lt_two_pow (Nat.or_lt_two_pow h0 h1) (by omega)
  · unfold assemble24
    have h0 : bus.press_b0 <<< 16 < 2 ^ 24 := by
      rw [Nat.shiftLeft_eq]
      omega
    have h1 : bus.press_b1 <<< 8 < 2 ^ 24 := by
      rw [Nat.shiftLeft_eq]
      omega
    exact Nat.or_lt_two_pow (Nat.or_lt_two_pow h0 h1) (by omega)

/-- Witness for C6 at a concrete input. -/
theorem c6_witness :
    (5 * 2 ||| 80 < 2 ^ 8) ∧ (5 * 2 ||| 64 < 2 ^ 8) ∧
      (_read ⟨80, 64, 0, 5⟩ ⟨1, 2, 3, 4, 5, 6, 5, 0, 0⟩
        ⟨true, 17, 34, 51, true, true, 68, 85, 102, true⟩ 7).2.2 =
      [BusOp.write (5 * 2 ||| 80), BusOp.write_then_read 0 3,
        BusOp.write (5 * 2 ||| 64), BusOp.write_then_read 0 3] :=
  ⟨by decide, by decide,
    ((c6_read_sequencing ⟨80, 64, 0, 5⟩ ⟨1, 2, 3, 4, 5, 6, 5, 0, 0⟩
      ⟨true, 17, 34, 51, true, true, 68, 85, 102, true⟩ 7 (by decide) (by decide)
      (by decide) (by decide) (by decide) (by decide) (by decide) (by decide)).1)⟩

/-! ## Linearity of the CRC over GF(2), for claim C9 -/

/-- Reduction modulo a power of two distributes over XOR. -/
theorem xor_mod_two_pow (a b n : Nat) :
    (a ^^^ b) % 2 ^ n = a % 2 ^ n ^^^ b % 2 ^ n := by
  apply Nat.eq_of_testBit_eq
  intro i
  simp only [Nat.testBit_mod_two_pow, Nat.testBit_xor]
  generalize a.testBit i = x
  generalize b.testBit i = y
  generalize decide (i < n) = c
  revert x y c
  decide

/-- Left shift by one distributes over XOR. -/
theorem shiftLeft_one_xor (a b : Nat) : (a ^^^ b) <<< 1 = a <<< 1 ^^^ b <<< 1 := by
  apply Nat.eq_of_testBit_eq
  intro i
  simp only [Nat.testBit_shiftLeft, Nat.testBit_xor]
  generalize a.testBit (i - 1) = x
  generalize b.testBit (i - 1) = y
  generalize decide (i ≥ 1) = c
  revert x y c
  decide

/-- Right shift distributes over XOR. -/
theorem shiftRight_xor_distrib (a b n : Nat) :
    (a ^^^ b) >>> n = a >>> n ^^^ b >>> n := by
  apply Nat.eq_of_testBit_eq
  intro i
  simp [Nat.testBit_shiftRight, Nat.testBit_xor]

/-- Rearrangement of a fourfold XOR. -/
theorem nat_xor_shuffle (w x y z : Nat) :
    (w ^^^ x) ^^^ (y ^^^ z) = (w ^^^ y) ^^^ (x ^^^ z) := by
  apply Nat.eq_of_testBit_eq
  intro i
  simp only [Nat.testBit_xor]
  generalize w.testBit i = a
  generalize x.testBit i = b
  generalize y.testBit i = c
  generalize z.testBit i = d
  revert a b c d
  decide

/-- One CRC step written with the conditional polynomial XOR pulled inside. -/
theorem crc_step_cond (x : Nat) :
    crc_step x = ((x <<< 1) ^^^ (if x.testBit 15 then 0x3000 else 0)) % 2 ^ 16 := by
  unfold crc_step
  by_cases h : x &&& 0x8000 ≠ 0
  · rw [if_pos h, if_pos ((land_8000_ne x).mp h)]
  · rw [if_neg h, if_neg (fun hb => h ((land_8000_ne x).mpr hb))]
    simp

/-- One CRC step is GF(2)-linear. -/
theorem crc_step_xor (a b : Nat) : crc_step (a ^^^ b) = crc_step a ^^^ crc_step b := by
  rw [crc_step_cond, crc_step_cond, crc_step_cond, ← xor_mod_two_pow]
  congr 1
  rw [nat_xor_shuffle, ← shiftLeft_one_xor]
  congr 1
  rw [Nat.testBit_xor]
  cases h1 : a.testBit 15 <;> cases h2 : b.testBit 15 <;> simp

/-- Iterated CRC steps are GF(2)-linear. -/
theorem crc_step_iter_xor (n : Nat) (a b : Nat) :
    crc_step^[n] (a ^^^ b) = crc_step^[n] a ^^^ crc_step^[n] b := by
  induction n generalizing a b with
  | zero => rfl
  | succ n ih =>
    rw [Function.iterate_succ_apply, Function.iterate_succ_apply,
      Function.iterate_succ_apply, crc_step_xor, ih]

/-- The eight-step CRC shift is GF(2)-linear. -/
theorem crc_shift8_xor (a b : Nat) :
    crc_shift8 (a ^^^ b) = crc_shift8 a ^^^ crc_shift8 b :=
  crc_step_iter_xor 8 a b

/-- The byte fold of the CRC is GF(2)-linear. -/
theorem crc_bytes_xor : ∀ (bs cs : List Nat) (s t : Nat), bs.length = cs.length →
    crc_bytes (List.zipWith (fun x y => x ^^^ y) bs cs) (s ^^^ t) =
      crc_bytes bs s ^^^ crc_bytes cs t
  | [], [], _, _, _ => rfl
  | [], _ :: _, _, _, h => by simp at h
  | _ :: _, [], _, _, h => by simp at h
  | b :: bs, c :: cs, s, t, h => by
    simp only [List.zipWith_cons_cons, crc_bytes]
    rw [show (s ^^^ t) ^^^ (b ^^^ c) = (s ^^^ b) ^^^ (t ^^^ c) from nat_xor_shuffle s t b c,
      crc_shift8_xor]
    exact crc_bytes_xor bs cs _ _ (by simpa using h)

/-- The 16 bytes fed to the CRC by `_psensor_crc_check`, written out. -/
theorem prom_bytes_prepped_explicit (w0 w1 w2 w3 w4 w5 w6 w7 : Nat) :
    prom_bytes (prepped [w0, w1, w2, w3, w4, w5, w6, w7]) =
      [(0x0FFF &&& w0) >>> 8, (0x0FFF &&& w0) &&& 0x00FF,
        w1 >>> 8, w1 &&& 0x00FF, w2 >>> 8, w2 &&& 0x00FF,
        w3 >>> 8, w3 &&& 0x00FF, w4 >>> 8, w4 &&& 0x00FF,
        w5 >>> 8, w5 &&& 0x00FF, w6 >>> 8, w6 &&& 0x00FF,
        0 >>> 8, 0 &&& 0x00FF] := rfl

/-- The computed CRC nibble is GF(2)-linear in the eight input words. -/
theorem crc_nibble_xor8 (v0 v1 v2 v3 v4 v5 v6 v7 c0 c1 c2 c3 c4 c5 c6 c7 : Nat) :
    crc_nibble [v0 ^^^ c0, v1 ^^^ c1, v2 ^^^ c2, v3 ^^^ c3,
        v4 ^^^ c4, v5 ^^^ c5, v6 ^^^ c6, v7 ^^^ c7] =
      crc_nibble [v0, v1, v2, v3, v4, v5, v6, v7] ^^^
        crc_nibble [c0, c1, c2, c3, c4, c5, c6, c7] := by
  unfold crc_nibble
  rw [← shiftRight_xor_distrib]
  congr 1
  have h := crc_bytes_xor (prom_bytes (prepped [v0, v1, v2, v3, v4, v5, v6, v7]))
    (prom_bytes (prepped [c0, c1, c2, c3, c4, c5, c6, c7])) 0 0 rfl
  simp only [Nat.xor_self] at h
  rw [← h]
  congr 1
  rw [prom_bytes_prepped_explicit, prom_bytes_prepped_explicit, prom_bytes_prepped_explicit]
  simp only [List.zipWith_cons_cons, List.zipWith_nil_right]
  simp [Nat.and_xor_distrib_left, Nat.and_xor_distrib_right, shiftRight_xor_distrib]

set_option maxRecDepth 100000 in
set_option maxHeartbeats 1000000 in
/-- Every single-bit error pattern has a CRC signature different from its
own stored top nibble: checked for all 7 words and 16 bit positions. -/
theorem crc_basis : ∀ j, j < 7 → ∀ k, k < 16 →
    crc_nibble ((List.replicate 8 0).set j (2 ^ k)) ≠
      storedCRC ((List.replicate 8 0).set j (2 ^ k)) := by decide

/-- XOR by a fixed value is injective. -/
theorem xor_left_cancel {a x y : Nat} (h : a ^^^ x = a ^^^ y) : x = y := by
  have h2 := congrArg (fun n => a ^^^ n) h
  simpa [← Nat.xor_assoc, Nat.xor_self] using h2

/-- If the computed nibbles agree and the error signatures differ, the
XORed values differ. -/
theorem crc_mismatch_of {nv sv ne se : Nat} (hv : nv = sv) (hne : ne ≠ se) :
    nv ^^^ ne ≠ sv ^^^ se := by
  subst hv
  exact fun h => hne (xor_left_cancel h)

/-- Claim C9: a 7-word calibration vector whose stored top nibble satisfies
the CRC relation passes `_psensor_crc_check` (so loading succeeds given
successful bus reads), and flipping any single bit of any of the 7 words —
any of the 112 positions, the CRC nibble bits included — makes the check
fail. -/
theorem c9_crc_detects_single_bit_flips (v0 v1 v2 v3 v4 v5 v6 v7 : Nat)
    (hvalid : crc_nibble [v0, v1, v2, v3, v4, v5, v6, v7] =
      storedCRC [v0, v1, v2, v3, v4, v5, v6, v7]) :
    (_psensor_crc_check [v0, v1, v2, v3, v4, v5, v6, v7]
        (storedCRC [v0, v1, v2, v3, v4, v5, v6, v7])).1 = true ∧
      ∀ j k, j < 7 → k < 16 →
        (_psensor_crc_check (flipWord [v0, v1, v2, v3, v4, v5, v6, v7] j k)
          (storedCRC (flipWord [v0, v1, v2, v3, v4, v5, v6, v7] j k))).1 = false := by
  constructor
  · simp only [_psensor_crc_check]
    exact beq_iff_eq.mpr hvalid
  · intro j k hj hk
    simp only [_psensor_crc_check]
    rw [beq_eq_false_iff_ne]
    interval_cases j
    · show crc_nibble [v0 ^^^ 2 ^ k, v1, v2, v3, v4, v5, v6, v7] ≠
        storedCRC [v0 ^^^ 2 ^ k, v1, v2, v3, v4, v5, v6, v7]
      have h := crc_nibble_xor8 v0 v1 v2 v3 v4 v5 v6 v7 (2 ^ k) 0 0 0 0 0 0 0
      simp only [Nat.xor_zero] at h
      rw [h]
      have hS : storedCRC [v0 ^^^ 2 ^ k, v1, v2, v3, v4, v5, v6, v7] =
          storedCRC [v0, v1, v2, v3, v4, v5, v6, v7] ^^^
            storedCRC [2 ^ k, 0, 0, 0, 0, 0, 0, 0] := by
        show ((v0 ^^^ 2 ^ k) &&& 0xF000) >>> 12 =
          (v0 &&& 0xF000) >>> 12 ^^^ (2 ^ k &&& 0xF000) >>> 12
        rw [Nat.and_xor_distrib_right, shiftRight_xor_distrib]
      rw [hS]
      exact crc_mismatch_of hvalid (crc_basis 0 (by omega) k hk)
    · show crc_nibble [v0, v1 ^^^ 2 ^ k, v2, v3, v4, v5, v6, v7] ≠
        storedCRC [v0, v1 ^^^ 2 ^ k, v2, v3, v4, v5, v6, v7]
      have h := crc_nibble_xor8 v0 v1 v2 v3 v4 v5 v6 v7 0 (2 ^ k) 0 0 0 0 0 0
      simp only [Nat.xor_zero] at h
      rw [h]
      have hS : storedCRC [v0, v1 ^^^ 2 ^ k, v2, v3, v4, v5, v6, v7] =
          storedCRC [v0, v1, v2, v3, v4, v5, v6, v7] ^^^
            storedCRC [0, 2 ^ k, 0, 0, 0, 0, 0, 0] :=
        by simp [storedCRC]
      rw [hS]
      exact crc_mismatch_of hvalid (crc_basis 1 (by omega) k hk)
    · show crc_nibble [v0, v1, v2 ^^^ 2 ^ k, v3, v4, v5, v6, v7] ≠
        storedCRC [v0, v1, v2 ^^^ 2 ^ k, v3, v4, v5, v6, v7]
      have h := crc_nibble_xor8 v0 v1 v2 v3 v4 v5 v6 v7 0 0 (2 ^ k) 0 0 0 0 0
      simp only [Nat.xor_zero] at h
      rw [h]
      have hS : storedCRC [v0, v1, v2 ^^^ 2 ^ k, v3, v4, v5, v6, v7] =
          storedCRC [v0, v1, v2, v3, v4, v5, v6, v7] ^^^
            storedCRC [0, 0, 2 ^ k, 0, 0, 0, 0, 0] :=
        by simp [storedCRC]
      rw [hS]
      exact crc_mismatch_of hvalid (crc_basis 2 (by omega) k hk)
    · show crc_nibble [v0, v1, v2, v3 ^^^ 2 ^ k, v4, v5, v6, v7] ≠
        storedCRC [v0, v1, v2, v3 ^^^ 2 ^ k, v4, v5, v6, v7]
      have h := crc_nibble_xor8 v0 v1 v2 v3 v4 v5 v6 v7 0 0 0 (2 ^ k) 0 0 0 0
      simp only [Nat.xor_zero] at h
      rw [h]
      have hS : storedCRC [v0, v1, v2, v3 ^^^ 2 ^ k, v4, v5, v6, v7] =
          storedCRC [v0, v1, v2, v3, v4, v5, v6, v7] ^^^
            storedCRC [0, 0, 0, 2 ^ k, 0, 0, 0, 0] :=
        by simp [storedCRC]
      rw [hS]
      exact crc_mismatch_of hvalid (crc_basis 3 (by omega) k hk)
    · show crc_nibble [v0, v1, v2, v3, v4 ^^^ 2 ^ k, v5, v6, v7] ≠
        storedCRC [v0, v1, v2, v3, v4 ^^^ 2 ^ k, v5, v6, v7]
      have h := crc_nibble_xor8 v0 v1 v2 v3 v4 v5 v6 v7 0 0 0 0 (2 ^ k) 0 0 0
      simp only [Nat.xor_zero] at h
      rw [h]
      have hS : storedCRC [v0, v1, v2, v3, v4 ^^^ 2 ^ k, v5, v6, v7] =
          storedCRC [v0, v1, v2, v3, v4, v5, v6, v7] ^^^
            storedCRC [0, 0, 0, 0, 2 ^ k, 0, 0, 0] :=
        by simp [storedCRC]
      rw [hS]
      exact crc_mismatch_of hvalid (crc_basis 4 (by omega) k hk)
    · show crc_nibble [v0, v1, v2, v3, v4, v5 ^^^ 2 ^ k, v6, v7] ≠
        storedCRC [v0, v1, v2, v3, v4, v5 ^^^ 2 ^ k, v6, v7]
      have h := crc_nibble_xor8 v0 v1 v2 v3 v4 v5 v6 v7 0 0 0 0 0 (2 ^ k) 0 0
      simp only [Nat.xor_zero] at h
      rw [h]
      have hS : storedCRC [v0, v1, v2, v3, v4, v5 ^^^ 2 ^ k, v6, v7] =
          storedCRC [v0, v1, v2, v3, v4, v5, v6, v7] ^^^
            storedCRC [0, 0, 0, 0, 0, 2 ^ k, 0, 0] :=
        by simp [storedCRC]
      rw [hS]
      exact crc_mismatch_of hvalid (crc_basis 5 (by omega) k hk)
    · show crc_nibble [v0, v1, v2, v3, v4, v5, v6 ^^^ 2 ^ k, v7] ≠
        storedCRC [v0, v1, v2, v3, v4, v5, v6 ^^^ 2 ^ k, v7]
      have h := crc_nibble_xor8 v0 v1 v2 v3 v4 v5 v6 v7 0 0 0 0 0 0 (2 ^ k) 0
      simp only [Nat.xor_zero] at h
      rw [h]
      have hS : storedCRC [v0, v1, v2, v3, v4, v5, v6 ^^^ 2 ^ k, v7] =
          storedCRC [v0, v1, v2, v3, v4, v5, v6, v7] ^^^
            storedCRC [0, 0, 0, 0, 0, 0, 2 ^ k, 0] :=
        by simp [storedCRC]
      rw [hS]
      exact crc_mismatch_of hvalid (crc_basis 6 (by omega) k hk)

set_option maxRecDepth 8000 in
/-- Witness for C9 at a concrete valid vector and a concrete flip. -/
theorem c9_witness :
    crc_nibble [32768, 46372, 43981, 29059, 27842, 31553, 28165, 0] =
        storedCRC [32768, 46372, 43981, 29059, 27842, 31553, 28165, 0] ∧
      (_psensor_crc_check (flipWord [32768, 46372, 43981, 29059, 27842, 31553, 28165, 0] 3 5)
        (storedCRC (flipWord [32768, 46372, 43981, 29059, 27842, 31553, 28165, 0] 3 5))).1 =
        false :=
  ⟨by decide,
    (c9_crc_detects_single_bit_flips 32768 46372 43981 29059 27842 31553 28165 0
      (by decide)).2 3 5 (by decide) (by decide)⟩

/-! ## Claims about the compensation algorithm: C1, C8 -/

theorem dT_val_eq {rt Traw : Int} (hrt : isU16 rt) (hT : isU24 Traw) :
    dT_val rt Traw = Traw - rt * 2 ^ 8 := by
  obtain ⟨h1, h2⟩ := hrt
  obtain ⟨h3, h4⟩ := hT
  unfold dT_val i32
  omega

theorem dT_bounds {rt Traw : Int} (hrt : isU16 rt) (hT : isU24 Traw) :
    -16776960 ≤ Traw - rt * 2 ^ 8 ∧ Traw - rt * 2 ^ 8 ≤ 16777215 := by
  obtain ⟨h1, h2⟩ := hrt
  obtain ⟨h3, h4⟩ := hT
  omega

/-- Bounds for a product whose left factor is bounded mixed-sign and whose
right factor lies in `[0, amax]`. -/
theorem mul_bounds_right {b lo hi a amax : Int} (hb1 : lo ≤ b) (hb2 : b ≤ hi)
    (ha1 : 0 ≤ a) (ha2 : a ≤ amax) (hlo : lo ≤ 0) (hhi : 0 ≤ hi) :
    lo * amax ≤ b * a ∧ b * a ≤ hi * amax := by
  constructor
  · nlinarith [mul_nonneg (by linarith : (0 : Int) ≤ b - lo) ha1,
      mul_nonneg (by linarith : (0 : Int) ≤ -lo) (by linarith : (0 : Int) ≤ amax - a)]
  · nlinarith [mul_nonneg (by linarith : (0 : Int) ≤ hi - b) ha1,
      mul_nonneg hhi (by linarith : (0 : Int) ≤ amax - a)]

/-- Bounds for a product whose left factor lies in `[0, amax]` and whose
right factor is bounded mixed-sign. -/
theorem mul_bounds_left {a amax b lo hi : Int} (ha1 : 0 ≤ a) (ha2 : a ≤ amax)
    (hb1 : lo ≤ b) (hb2 : b ≤ hi) (hlo : lo ≤ 0) (hhi : 0 ≤ hi) :
    amax * lo ≤ a * b ∧ a * b ≤ amax * hi := by
  constructor
  · nlinarith [mul_nonneg ha1 (by linarith : (0 : Int) ≤ b - lo),
      mul_nonneg (by linarith : (0 : Int) ≤ amax - a) (by linarith : (0 : Int) ≤ -lo)]
  · nlinarith [mul_nonneg ha1 (by linarith : (0 : Int) ≤ hi - b),
      mul_nonneg (by linarith : (0 : Int) ≤ amax - a) hhi]

/-- Bounds for a square from two-sided bounds on the base. -/
theorem sq_bounds {x M : Int} (h1 : -M ≤ x) (h2 : x ≤ M) :
    0 ≤ x * x ∧ x * x ≤ M * M :=
  ⟨mul_self_nonneg x,
    by nlinarith [mul_nonneg (by linarith : (0 : Int) ≤ M - x) (by linarith : (0 : Int) ≤ M + x)]⟩

theorem TEMP_stage {ttc d : Int} (httc : isU16 ttc)
    (hd1 : -16776960 ≤ d) (hd2 : d ≤ 16777215) :
    TEMP_val ttc d = 2000 + asr (d * ttc) 23 ∧
      -129072 ≤ 2000 + asr (d * ttc) 23 ∧ 2000 + asr (d * ttc) 23 ≤ 133072 := by
  obtain ⟨hc1, hc2⟩ := httc
  obtain ⟨hp1, hp2⟩ := mul_bounds_right hd1 hd2 hc1 (by omega : ttc ≤ 65535)
    (by norm_num) (by norm_num)
  have hq1 : asr (-16776960 * 65535 : Int) 23 ≤ asr (d * ttc) 23 := asr_le_asr 23 hp1
  have hq2 : asr (d * ttc) 23 ≤ asr (16777215 * 65535 : Int) 23 := asr_le_asr 23 hp2
  have e1 : (-131072 : Int) ≤ asr (-16776960 * 65535 : Int) 23 := by decide
  have e2 : asr (16777215 * 65535 : Int) 23 ≤ 131072 := by decide
  refine ⟨?_, by linarith, by linarith⟩
  have s1 : i64 (d * ttc) = d * ttc := i64_id (by linarith) (by linarith)
  have s2 : i64 (2000 + asr (d * ttc) 23) = 2000 + asr (d * ttc) 23 :=
    i64_id (by linarith) (by linarith)
  unfold TEMP_val
  rw [s1, s2]
  exact i32_id (by linarith) (by linarith)

set_option maxHeartbeats 1000000 in
theorem second_stage {d T : Int} (hd1 : -16776960 ≤ d) (hd2 : d ≤ 16777215)
    (hT1 : -129072 ≤ T) (hT2 : T ≤ 133072) :
    second_val d T =
      (if T < 2000 then
        if T < -1500 then
          (asr (3 * d ^ 2) 33,
            61 * (T - 2000) ^ 2 / 16 + 17 * (T + 1500) ^ 2,
            29 * (T - 2000) ^ 2 / 16 + 9 * (T + 1500) ^ 2)
        else
          (asr (3 * d ^ 2) 33, 61 * (T - 2000) ^ 2 / 16, 29 * (T - 2000) ^ 2 / 16)
      else (asr (5 * d ^ 2) 38, 0, 0)) := by
  obtain ⟨hdd0, hddM⟩ := sq_bounds (show -(16777215 : Int) ≤ d by linarith) hd2
  obtain ⟨hx0, hxM⟩ := sq_bounds (show -(131072 : Int) ≤ T - 2000 by linarith)
    (show T - 2000 ≤ 131072 by linarith)
  obtain ⟨hy0, hyM⟩ := sq_bounds (show -(134572 : Int) ≤ T + 1500 by linarith)
    (show T + 1500 ≤ 134572 by linarith)
  have sA : i64 (d * d) = d * d := i64_id (by linarith) (by linarith)
  have sB3 : i64 (3 * (d * d)) = 3 * (d * d) := i64_id (by linarith) (by linarith)
  have sB5 : i64 (5 * (d * d)) = 5 * (d * d) := i64_id (by linarith) (by linarith)
  have sC61 : i64 (61 * (T - 2000)) = 61 * (T - 2000) := i64_id (by linarith) (by linarith)
  have sC29 : i64 (29 * (T - 2000)) = 29 * (T - 2000) := i64_id (by linarith) (by linarith)
  have sD61 : i64 (61 * (T - 2000) * (T - 2000)) = 61 * (T - 2000) * (T - 2000) :=
    i64_id (by nlinarith [hx0]) (by nlinarith [hxM])
  have sD29 : i64 (29 * (T - 2000) * (T - 2000)) = 29 * (T - 2000) * (T - 2000) :=
    i64_id (by nlinarith [hx0]) (by nlinarith [hxM])
  have sG17 : i64 (17 * (T + 1500)) = 17 * (T + 1500) := i64_id (by linarith) (by linarith)
  have sG9 : i64 (9 * (T + 1500)) = 9 * (T + 1500) := i64_id (by linarith) (by linarith)
  have sH17 : i64 (17 * (T + 1500) * (T + 1500)) = 17 * (T + 1500) * (T + 1500) :=
    i64_id (by nlinarith [hy0]) (by nlinarith [hyM])
  have sH9 : i64 (9 * (T + 1500) * (T + 1500)) = 9 * (T + 1500) * (T + 1500) :=
    i64_id (by nlinarith [hy0]) (by nlinarith [hyM])
  have t61 : (61 * (T - 2000) * (T - 2000)).tdiv 16 = 61 * (T - 2000) * (T - 2000) / 16 :=
    Int.tdiv_eq_ediv (by nlinarith [hx0]) (by norm_num)
  have t29 : (29 * (T - 2000) * (T - 2000)).tdiv 16 = 29 * (T - 2000) * (T - 2000) / 16 :=
    Int.tdiv_eq_ediv (by nlinarith [hx0]) (by norm_num)
  have d61a : (0 : Int) ≤ 61 * (T - 2000) * (T - 2000) / 16 :=
    Int.ediv_nonneg (by nlinarith [hx0]) (by norm_num)
  have d61b : 61 * (T - 2000) * (T - 2000) / 16 ≤ 66000000000 := by
    have h1 : 61 * (T - 2000) * (T - 2000) ≤ 61 * (131072 * 131072) := by nlinarith [hxM]
    have h2 := Int.ediv_le_ediv (by norm_num : (0 : Int) < 16) h1
    have h3 : (61 * (131072 * 131072) : Int) / 16 ≤ 66000000000 := by decide
    linarith
  have d29a : (0 : Int) ≤ 29 * (T - 2000) * (T - 2000) / 16 :=
    Int.ediv_nonneg (by nlinarith [hx0]) (by norm_num)
  have d29b : 29 * (T - 2000) * (T - 2000) / 16 ≤ 32000000000 := by
    have h1 : 29 * (T - 2000) * (T - 2000) ≤ 29 * (131072 * 131072) := by nlinarith [hxM]
    have h2 := Int.ediv_le_ediv (by norm_num : (0 : Int) < 16) h1
    have h3 : (29 * (131072 * 131072) : Int) / 16 ≤ 32000000000 := by decide
    linarith
  have u17 : i64 (61 * (T - 2000) * (T - 2000) / 16 + 17 * (T + 1500) * (T + 1500)) =
      61 * (T - 2000) * (T - 2000) / 16 + 17 * (T + 1500) * (T + 1500) :=
    i64_id (by nlinarith [hy0]) (by nlinarith [hyM])
  have u9 : i64 (29 * (T - 2000) * (T - 2000) / 16 + 9 * (T + 1500) * (T + 1500)) =
      29 * (T - 2000) * (T - 2000) / 16 + 9 * (T + 1500) * (T + 1500) :=
    i64_id (by nlinarith [hy0]) (by nlinarith [hyM])
  have r3 : 3 * (d * d) = 3 * d ^ 2 := by ring
  have r5 : 5 * (d * d) = 5 * d ^ 2 := by ring
  have r61 : 61 * (T - 2000) * (T - 2000) = 61 * (T - 2000) ^ 2 := by ring
  have r29 : 29 * (T - 2000) * (T - 2000) = 29 * (T - 2000) ^ 2 := by ring
  have r17 : 17 * (T + 1500) * (T + 1500) = 17 * (T + 1500) ^ 2 := by ring
  have r9 : 9 * (T + 1500) * (T + 1500) = 9 * (T + 1500) ^ 2 := by ring
  simp only [second_val]
  split_ifs with h1 h2
  · rw [sA, sB3, sC61, sD61, sC29, sD29, sG17, sH17, sG9, sH9, t61, t29, u17, u9,
      r3, r61, r29, r17, r9]
  · rw [sA, sB3, sC61, sD61, sC29, sD29, t61, t29, r3, r61, r29]
  · rw [sA, sB5, r5]

theorem second_bounds {d T : Int} (hd1 : -16776960 ≤ d) (hd2 : d ≤ 16777215)
    (hT1 : -129072 ≤ T) (hT2 : T ≤ 133072) :
    0 ≤ ((if T < 2000 then
        if T < -1500 then
          ((asr (3 * d ^ 2) 33 : Int),
            61 * (T - 2000) ^ 2 / 16 + 17 * (T + 1500) ^ 2,
            29 * (T - 2000) ^ 2 / 16 + 9 * (T + 1500) ^ 2)
        else
          (asr (3 * d ^ 2) 33, 61 * (T - 2000) ^ 2 / 16, 29 * (T - 2000) ^ 2 / 16)
      else (asr (5 * d ^ 2) 38, 0, 0)) : Int × Int × Int).2.1 ∧
      ((if T < 2000 then
        if T < -1500 then
          ((asr (3 * d ^ 2) 33 : Int),
            61 * (T - 2000) ^ 2 / 16 + 17 * (T + 1500) ^ 2,
            29 * (T - 2000) ^ 2 / 16 + 9 * (T + 1500) ^ 2)
        else
          (asr (3 * d ^ 2) 33, 61 * (T - 2000) ^ 2 / 16, 29 * (T - 2000) ^ 2 / 16)
      else (asr (5 * d ^ 2) 38, 0, 0)) : Int × Int × Int).2.1 ≤ 400000000000 ∧
      0 ≤ ((if T < 2000 then
        if T < -1500 then
          ((asr (3 * d ^ 2) 33 : Int),
            61 * (T - 2000) ^ 2 / 16 + 17 * (T + 1500) ^ 2,
            29 * (T - 2000) ^ 2 / 16 + 9 * (T + 1500) ^ 2)
        else
          (asr (3 * d ^ 2) 33, 61 * (T - 2000) ^ 2 / 16, 29 * (T - 2000) ^ 2 / 16)
      else (asr (5 * d ^ 2) 38, 0, 0)) : Int × Int × Int).2.2 ∧
      ((if T < 2000 then
        if T < -1500 then
          ((asr (3 * d ^ 2) 33 : Int),
            61 * (T - 2000) ^ 2 / 16 + 17 * (T + 1500) ^ 2,
            29 * (T - 2000) ^ 2 / 16 + 9 * (T + 1500) ^ 2)
        else
          (asr (3 * d ^ 2) 33, 61 * (T - 2000) ^ 2 / 16, 29 * (T - 2000) ^ 2 / 16)
      else (asr (5 * d ^ 2) 38, 0, 0)) : Int × Int × Int).2.2 ≤ 200000000000 := by
  obtain ⟨hx0, hxM⟩ := sq_bounds (show -(131072 : Int) ≤ T - 2000 by linarith)
    (show T - 2000 ≤ 131072 by linarith)
  obtain ⟨hy0, hyM⟩ := sq_bounds (show -(134572 : Int) ≤ T + 1500 by linarith)
    (show T + 1500 ≤ 134572 by linarith)
  have d61a : (0 : Int) ≤ 61 * (T - 2000) ^ 2 / 16 :=
    Int.ediv_nonneg (by nlinarith [hx0]) (by norm_num)
  have d61b : 61 * (T - 2000) ^ 2 / 16 ≤ 66000000000 := by
    have h1 : 61 * (T - 2000) ^ 2 ≤ 61 * (131072 * 131072) := by nlinarith [hxM]
    have h2 := Int.ediv_le_ediv (by norm_num : (0 : Int) < 16) h1
    have h3 : (61 * (131072 * 131072) : Int) / 16 ≤ 66000000000 := by decide
    linarith
  have d29a : (0 : Int) ≤ 29 * (T - 2000) ^ 2 / 16 :=
    Int.ediv_nonneg (by nlinarith [hx0]) (by norm_num)
  have d29b : 29 * (T - 2000) ^ 2 / 16 ≤ 32000000000 := by
    have h1 : 29 * (T - 2000) ^ 2 ≤ 29 * (131072 * 131072) := by nlinarith [hxM]
    have h2 := Int.ediv_le_ediv (by norm_num : (0 : Int) < 16) h1
    have h3 : (29 * (131072 * 131072) : Int) / 16 ≤ 32000000000 := by decide
    linarith
  have hy17a : (0 : Int) ≤ 17 * (T + 1500) ^ 2 := by nlinarith [hy0]
  have hy17b : 17 * (T + 1500) ^ 2 ≤ 310000000000 := by nlinarith [hyM]
  have hy9a : (0 : Int) ≤ 9 * (T + 1500) ^ 2 := by nlinarith [hy0]
  have hy9b : 9 * (T + 1500) ^ 2 ≤ 163000000000 := by nlinarith [hyM]
  split_ifs with h1 h2 <;> dsimp only <;>
    exact ⟨by linarith, by linarith, by linarith, by linarith⟩

theorem OFF_stage {po potc d OFF2 : Int} (hpo : isU16 po) (hpotc : isU16 potc)
    (hd1 : -16776960 ≤ d) (hd2 : d ≤ 16777215)
    (hO1 : 0 ≤ OFF2) (hO2 : OFF2 ≤ 400000000000) :
    OFF_val po potc d OFF2 = po * 2 ^ 17 + asr (potc * d) 6 - OFF2 ∧
      -420000000000 ≤ po * 2 ^ 17 + asr (potc * d) 6 - OFF2 ∧
      po * 2 ^ 17 + asr (potc * d) 6 - OFF2 ≤ 26000000000 := by
  obtain ⟨hpo1, hpo2⟩ := hpo
  obtain ⟨hc1, hc2⟩ := hpotc
  obtain ⟨hp1, hp2⟩ := mul_bounds_left hc1 (by omega : potc ≤ 65535) hd1 hd2
    (by norm_num) (by norm_num)
  have hq1 : asr (65535 * -16776960 : Int) 6 ≤ asr (potc * d) 6 := asr_le_asr 6 hp1
  have hq2 : asr (potc * d) 6 ≤ asr (65535 * 16777215 : Int) 6 := asr_le_asr 6 hp2
  have e1 : (-17200000000 : Int) ≤ asr (65535 * -16776960 : Int) 6 := by decide
  have e2 : asr (65535 * 16777215 : Int) 6 ≤ 17200000000 := by decide
  have hpo3 : po * 2 ^ 17 ≤ 65535 * 2 ^ 17 := by omega
  have hpo0 : 0 ≤ po * 2 ^ 17 := by omega
  have s1 : i64 (potc * d) = potc * d := i64_id (by linarith) (by linarith)
  have s2 : i64 (po * 2 ^ 17) = po * 2 ^ 17 := i64_id (by omega) (by omega)
  have s3 : i64 (po * 2 ^ 17 + asr (potc * d) 6) = po * 2 ^ 17 + asr (potc * d) 6 :=
    i64_id (by linarith) (by linarith)
  have s4 : i64 (po * 2 ^ 17 + asr (potc * d) 6 - OFF2) =
      po * 2 ^ 17 + asr (potc * d) 6 - OFF2 := i64_id (by linarith) (by linarith)
  refine ⟨?_, by linarith, by linarith⟩
  unfold OFF_val
  rw [s1, s2, s3, s4]

theorem SENS_stage {ps pstc d SENS2 : Int} (hps : isU16 ps) (hpstc : isU16 pstc)
    (hd1 : -16776960 ≤ d) (hd2 : d ≤ 16777215)
    (hS1 : 0 ≤ SENS2) (hS2 : SENS2 ≤ 200000000000) :
    SENS_val ps pstc d SENS2 = ps * 2 ^ 16 + asr (pstc * d) 7 - SENS2 ∧
      -210000000000 ≤ ps * 2 ^ 16 + asr (pstc * d) 7 - SENS2 ∧
      ps * 2 ^ 16 + asr (pstc * d) 7 - SENS2 ≤ 13000000000 := by
  obtain ⟨hps1, hps2⟩ := hps
  obtain ⟨hc1, hc2⟩ := hpstc
  obtain ⟨hp1, hp2⟩ := mul_bounds_left hc1 (by omega : pstc ≤ 65535) hd1 hd2
    (by norm_num) (by norm_num)
  have hq1 : asr (65535 * -16776960 : Int) 7 ≤ asr (pstc * d) 7 := asr_le_asr 7 hp1
  have hq2 : asr (pstc * d) 7 ≤ asr (65535 * 16777215 : Int) 7 := asr_le_asr 7 hp2
  have e1 : (-8600000000 : Int) ≤ asr (65535 * -16776960 : Int) 7 := by decide
  have e2 : asr (65535 * 16777215 : Int) 7 ≤ 8600000000 := by decide
  have hps3 : ps * 2 ^ 16 ≤ 65535 * 2 ^ 16 := by omega
  have hps0 : 0 ≤ ps * 2 ^ 16 := by omega
  have s1 : i64 (pstc * d) = pstc * d := i64_id (by linarith) (by linarith)
  have s2 : i64 (ps * 2 ^ 16) = ps * 2 ^ 16 := i64_id (by omega) (by omega)
  have s3 : i64 (ps * 2 ^ 16 + asr (pstc * d) 7) = ps * 2 ^ 16 + asr (pstc * d) 7 :=
    i64_id (by linarith) (by linarith)
  have s4 : i64 (ps * 2 ^ 16 + asr (pstc * d) 7 - SENS2) =
      ps * 2 ^ 16 + asr (pstc * d) 7 - SENS2 := i64_id (by linarith) (by linarith)
  refine ⟨?_, by linarith, by linarith⟩
  unfold SENS_val
  rw [s1, s2, s3, s4]

theorem P_stage {Praw SENS OFF : Int} (hPr : isU24 Praw)
    (hS1 : -210000000000 ≤ SENS) (hS2 : SENS ≤ 13000000000)
    (hO1 : -420000000000 ≤ OFF) (hO2 : OFF ≤ 26000000000) :
    P_val Praw SENS OFF = asr (asr (Praw * SENS) 21 - OFF) 15 := by
  obtain ⟨hr1, hr2⟩ := hPr
  obtain ⟨hp1, hp2⟩ := mul_bounds_left hr1 (by omega : Praw ≤ 16777215) hS1 hS2
    (by norm_num) (by norm_num)
  have s1 : i64 (Praw * SENS) = Praw * SENS := i64_id (by linarith) (by linarith)
  have hq1 : asr (16777215 * -210000000000 : Int) 21 ≤ asr (Praw * SENS) 21 :=
    asr_le_asr 21 hp1
  have hq2 : asr (Praw * SENS) 21 ≤ asr (16777215 * 13000000000 : Int) 21 :=
    asr_le_asr 21 hp2
  have e1 : (-1700000000000 : Int) ≤ asr (16777215 * -210000000000 : Int) 21 := by decide
  have e2 : asr (16777215 * 13000000000 : Int) 21 ≤ 110000000000 := by decide
  have s2 : i64 (asr (Praw * SENS) 21 - OFF) = asr (Praw * SENS) 21 - OFF :=
    i64_id (by linarith) (by linarith)
  unfold P_val
  rw [s1, s2]

set_option maxHeartbeats 1000000 in
/-- Claim C1: for every raw sample (each 24-bit) and every calibration set
(each constant 16-bit), the compensation step of `_read` computes exactly,
in signed 64-bit arithmetic that never overflows, the spec.md section 4.3
algorithm: dT, TEMP, the second-order branch terms T2/OFF2/SENS2, OFF,
SENS, P, with the same shift/multiply order, and stores
temperature = (TEMP - T2)/100 and pressure = P/100 (all intermediate values
agree, not just the two results). -/
theorem c1_compensation (ps po pstc potc rt ttc Traw Praw : Int)
    (hps : isU16 ps) (hpo : isU16 po) (hpstc : isU16 pstc) (hpotc : isU16 potc)
    (hrt : isU16 rt) (httc : isU16 ttc) (hTraw : isU24 Traw) (hPraw : isU24 Praw) :
    compRead ps po pstc potc rt ttc Traw Praw =
      specCompensate ps po pstc potc rt ttc Traw Praw := by
  obtain ⟨hd1, hd2⟩ := dT_bounds hrt hTraw
  have hdT : dT_val rt Traw = Traw - rt * 2 ^ 8 := dT_val_eq hrt hTraw
  obtain ⟨hTe, hT1, hT2⟩ := TEMP_stage httc hd1 hd2
  have hsec := second_stage hd1 hd2 hT1 hT2
  obtain ⟨hO2a, hO2b, hS2a, hS2b⟩ := second_bounds hd1 hd2 hT1 hT2
  obtain ⟨hOFFe, hOFF1, hOFF2⟩ := OFF_stage hpo hpotc hd1 hd2 hO2a hO2b
  obtain ⟨hSENSe, hSENS1, hSENS2⟩ := SENS_stage hps hpstc hd1 hd2 hS2a hS2b
  have hPe := P_stage hPraw hSENS1 hSENS2 hOFF1 hOFF2
  simp only [compRead, specCompensate]
  rw [hdT, hTe, hsec, hOFFe, hSENSe, hPe]

set_option maxHeartbeats 1000000 in
/-- Claim C8: whenever the first-order temperature TEMP computes to exactly
2000 centidegrees, the compensation takes the "not below 20 degrees C"
branch: T2 = (5 * dT^2) >> 38 and OFF2 = SENS2 = 0 (the TEMP < 2000 branch
is only taken for TEMP strictly below 2000). -/
theorem c8_branch (ps po pstc potc rt ttc Traw Praw : Int)
    (hps : isU16 ps) (hpo : isU16 po) (hpstc : isU16 pstc) (hpotc : isU16 potc)
    (hrt : isU16 rt) (httc : isU16 ttc) (hTraw : isU24 Traw) (hPraw : isU24 Praw)
    (h2000 : (compRead ps po pstc potc rt ttc Traw Praw).TEMP = 2000) :
    (compRead ps po pstc potc rt ttc Traw Praw).T2 =
        asr (5 * ((compRead ps po pstc potc rt ttc Traw Praw).dT *
          (compRead ps po pstc potc rt ttc Traw Praw).dT)) 38 ∧
      (compRead ps po pstc potc rt ttc Traw Praw).OFF2 = 0 ∧
      (compRead ps po pstc potc rt ttc Traw Praw).SENS2 = 0 := by
  obtain ⟨hd1, hd2⟩ := dT_bounds hrt hTraw
  have hdTeq : (compRead ps po pstc potc rt ttc Traw Praw).dT = Traw - rt * 2 ^ 8 :=
    dT_val_eq hrt hTraw
  obtain ⟨hdd0, hddM⟩ :=
    sq_bounds (show -(16777215 : Int) ≤ Traw - rt * 2 ^ 8 by linarith) hd2
  have sA : i64 ((Traw - rt * 2 ^ 8) * (Traw - rt * 2 ^ 8)) =
      (Traw - rt * 2 ^ 8) * (Traw - rt * 2 ^ 8) := i64_id (by linarith) (by linarith)
  have sB : i64 (5 * ((Traw - rt * 2 ^ 8) * (Traw - rt * 2 ^ 8))) =
      5 * ((Traw - rt * 2 ^ 8) * (Traw - rt * 2 ^ 8)) := i64_id (by linarith) (by linarith)
  have hTv : TEMP_val ttc (dT_val rt Traw) = 2000 := h2000
  have key : second_val (dT_val rt Traw) (TEMP_val ttc (dT_val rt Traw)) =
      (asr (5 * ((Traw - rt * 2 ^ 8) * (Traw - rt * 2 ^ 8))) 38, 0, 0) := by
    rw [hTv, (dT_val_eq hrt hTraw : dT_val rt Traw = _)]
    simp only [second_val]
    rw [if_neg (by omega : ¬(2000 : Int) < 2000), sA, sB]
  refine ⟨?_, ?_, ?_⟩
  · show (second_val (dT_val rt Traw) (TEMP_val ttc (dT_val rt Traw))).1 = _
    rw [key, hdTeq]
  · show (second_val (dT_val rt Traw) (TEMP_val ttc (dT_val rt Traw))).2.1 = 0
    rw [key]
  · show (second_val (dT_val rt Traw) (TEMP_val ttc (dT_val rt Traw))).2.2 = 0
    rw [key]


/-- Witness for C1 at a concrete in-range input. -/
theorem c1_witness :
    isU16 1 ∧ isU16 2 ∧ isU16 3 ∧ isU16 4 ∧ isU16 5 ∧ isU16 6 ∧ isU24 7 ∧ isU24 8 ∧
      compRead 1 2 3 4 5 6 7 8 = specCompensate 1 2 3 4 5 6 7 8 :=
  ⟨by decide, by decide, by decide, by decide, by decide, by decide, by decide, by decide,
    c1_compensation 1 2 3 4 5 6 7 8 (by decide) (by decide) (by decide) (by decide)
      (by decide) (by decide) (by decide) (by decide)⟩

/-- Witness for C8 at a concrete input reaching TEMP = 2000 exactly. -/
theorem c8_witness :
    (compRead 0 0 0 0 0 0 0 0).TEMP = 2000 ∧
      (compRead 0 0 0 0 0 0 0 0).T2 =
          asr (5 * ((compRead 0 0 0 0 0 0 0 0).dT * (compRead 0 0 0 0 0 0 0 0).dT)) 38 ∧
        (compRead 0 0 0 0 0 0 0 0).OFF2 = 0 ∧ (compRead 0 0 0 0 0 0 0 0).SENS2 = 0 :=
  ⟨by decide,
    c8_branch 0 0 0 0 0 0 0 0 (by decide) (by decide) (by decide) (by decide)
      (by decide) (by decide) (by decide) (by decide) (by decide)⟩
